import Mathlib

/-!
Shallow embedding of src/pipelines/alphafold_inference_pipeline.py.

The file under verification declares a Kubeflow Pipelines (KFP v2) graph:
a configuration component, two artifact importers, a data-preparation
component, and a ParallelFor loop over model-runner descriptors whose body
holds one prediction call and one Condition-gated relaxation call.

The embedding has two layers:
 1. the declared graph, a constant abstract-syntax tree over the DSL
    fragment the file uses (component calls, importers, one level of
    ParallelFor with component and Condition children);
 2. an expansion semantics that, given concrete pipeline-parameter values
    and a concrete model-runner list (the opaque output of the
    configuration step), yields the task instances the declared graph
    stands for: one body instance per runner, Condition bodies included
    exactly when the gate evaluates to true.

Values of the config module (src/config.py, referenced by the pipeline
file) are kept abstract as a Config record: the pipeline file only ever
forwards them.
-/

/-- Constants read from the src.config module. The pipeline file forwards
them verbatim, so they stay abstract here. -/
structure Config where
  DATA_PIPELINE_MACHINE_TYPE : String
  NFS_SERVER : String
  NFS_PATH : String
  NFS_MOUNT_POINT : String
  NETWORK : String
  MODEL_PARAMS_GCS_LOCATION : String
  UNIREF90_PATH : String
  MGNIFY_PATH : String
  BFD_PATH : String
  SMALL_BFD_PATH : String
  UNIREF30_PATH : String
  PDB70_PATH : String
  PDB_MMCIF_PATH : String
  PDB_OBSOLETE_PATH : String
  PDB_SEQRES_PATH : String
  UNIPROT_PATH : String
  PARALLELISM : Nat
  TF_FORCE_UNIFIED_MEMORY : String
  XLA_PYTHON_CLIENT_MEM_FRACTION : String
deriving DecidableEq, Repr

/-- A value reference appearing as a component argument: a pipeline
parameter, the output of an earlier step or importer, a field of the
ParallelFor loop item, or a literal. -/
inductive ValueRef where
  | param (name : String)
  | stepOut (step : String) (key : String)
  | importerOut (name : String)
  | loopItem (field : String)
  | litBool (b : Bool)
  | litStr (s : String)
  | litInt (n : Int)
deriving DecidableEq, Repr

/-- An NFS mount entry as passed to create_custom_training_job_from_component. -/
structure NfsMount where
  server : String
  path : String
  mountPoint : String
deriving DecidableEq, Repr

/-- The infrastructure shape produced by
create_custom_training_job_from_component for one component. -/
structure CustomJobSpec where
  display_name : String
  machine_type : String
  accelerator_type : Option String
  accelerator_count : Option Nat
  nfs_mounts : List NfsMount
  network : Option String
deriving DecidableEq, Repr

/-- An environment variable set on a step via set_env_variable. -/
structure EnvVar where
  name : String
  value : String
deriving DecidableEq, Repr

/-- A retry policy set on a step via set_retry. -/
structure RetryPolicy where
  num_retries : Nat
  backoff_duration : String
  backoff_factor : Nat
deriving DecidableEq, Repr

/-- One component invocation in the pipeline body: the Python variable
name it is bound to, the custom-job wrapper it runs under (none for the
plain configuration component), its display name when set explicitly, its
keyword arguments, environment variables and retry policy. -/
structure ComponentCall where
  name : String
  job : Option CustomJobSpec
  display_name : Option String
  args : List (String × ValueRef)
  env : List EnvVar
  retry : Option RetryPolicy
deriving DecidableEq, Repr

/-- A dsl.importer declaration. -/
structure ImporterCall where
  name : String
  display_name : String
  artifact_uri : String
  artifact_class : String
  reimport : Bool
  metadata : List (String × String)
deriving DecidableEq, Repr

/-- The gate expression of a dsl.Condition; the file only compares a
pipeline parameter against a string literal. -/
inductive GateExpr where
  | eqStr (lhs : ValueRef) (rhs : String)
deriving DecidableEq, Repr

/-- A node inside a ParallelFor body: a component call or a Condition
holding component calls. -/
inductive InnerNode where
  | comp (c : ComponentCall)
  | condition (gate : GateExpr) (body : List ComponentCall)
deriving DecidableEq, Repr

/-- A top-level pipeline node. -/
inductive Node where
  | comp (c : ComponentCall)
  | importer (i : ImporterCall)
  | condition (gate : GateExpr) (body : List ComponentCall)
  | parallelFor (loop_args : ValueRef) (parallelism : Nat) (body : List InnerNode)
deriving DecidableEq, Repr

/-- DataPipelineOp: the Data Pipeline custom-job wrapper. -/
def DataPipelineOp (cfg : Config) : CustomJobSpec :=
  { display_name := "Data Pipeline"
    machine_type := cfg.DATA_PIPELINE_MACHINE_TYPE
    accelerator_type := none
    accelerator_count := none
    nfs_mounts := [{ server := cfg.NFS_SERVER, path := cfg.NFS_PATH,
                     mountPoint := cfg.NFS_MOUNT_POINT }]
    network := some cfg.NETWORK }

/-- WrappedPredictOp: the Predict custom-job wrapper. -/
def WrappedPredictOp : CustomJobSpec :=
  { display_name := "Predict"
    machine_type := "g2-standard-12"
    accelerator_type := some "NVIDIA_L4"
    accelerator_count := some 1
    nfs_mounts := []
    network := none }

/-- WrappedRelaxOp: the Relax custom-job wrapper. -/
def WrappedRelaxOp : CustomJobSpec :=
  { display_name := "Relax"
    machine_type := "g2-standard-12"
    accelerator_type := some "NVIDIA_L4"
    accelerator_count := some 1
    nfs_mounts := []
    network := none }

/-- run_config: the ConfigureRunOp call. -/
def run_config : ComponentCall :=
  { name := "run_config"
    job := none
    display_name := some "Configure Pipeline Run"
    args := [("sequence_path", .param "sequence_path"),
             ("model_preset", .param "model_preset"),
             ("num_multimer_predictions_per_model",
              .param "num_multimer_predictions_per_model")]
    env := []
    retry := none }

/-- model_parameters: the dsl.importer for the model parameter blob. -/
def model_parameters (cfg : Config) : ImporterCall :=
  { name := "model_parameters"
    display_name := "Model parameters"
    artifact_uri := cfg.MODEL_PARAMS_GCS_LOCATION
    artifact_class := "Artifact"
    reimport := true
    metadata := [] }

/-- reference_databases: the dsl.importer for the reference-database mount. -/
def reference_databases (cfg : Config) : ImporterCall :=
  { name := "reference_databases"
    display_name := "Reference databases"
    artifact_uri := cfg.NFS_MOUNT_POINT
    artifact_class := "Dataset"
    reimport := false
    metadata := [("uniref90", cfg.UNIREF90_PATH),
                 ("mgnify", cfg.MGNIFY_PATH),
                 ("bfd", cfg.BFD_PATH),
                 ("small_bfd", cfg.SMALL_BFD_PATH),
                 ("uniref30", cfg.UNIREF30_PATH),
                 ("pdb70", cfg.PDB70_PATH),
                 ("pdb_mmcif", cfg.PDB_MMCIF_PATH),
                 ("pdb_obsolete", cfg.PDB_OBSOLETE_PATH),
                 ("pdb_seqres", cfg.PDB_SEQRES_PATH),
                 ("uniprot", cfg.UNIPROT_PATH)] }

/-- data_pipeline: the DataPipelineOp call. -/
def data_pipeline (cfg : Config) : ComponentCall :=
  { name := "data_pipeline"
    job := some (DataPipelineOp cfg)
    display_name := some "Prepare Features"
    args := [("project", .param "project"),
             ("location", .param "region"),
             ("ref_databases", .importerOut "reference_databases"),
             ("sequence", .stepOut "run_config" "sequence"),
             ("max_template_date", .param "max_template_date"),
             ("run_multimer_system", .stepOut "run_config" "run_multimer_system"),
             ("use_small_bfd", .param "use_small_bfd")]
    env := []
    retry := none }

/-- model_predict: the WrappedPredictOp call inside the ParallelFor body. -/
def model_predict (cfg : Config) : ComponentCall :=
  { name := "model_predict"
    job := some WrappedPredictOp
    display_name := none
    args := [("project", .param "project"),
             ("location", .param "region"),
             ("model_features", .stepOut "data_pipeline" "features"),
             ("model_params", .importerOut "model_parameters"),
             ("model_name", .loopItem "model_name"),
             ("prediction_index", .loopItem "prediction_index"),
             ("run_multimer_system", .stepOut "run_config" "run_multimer_system"),
             ("num_ensemble", .stepOut "run_config" "num_ensemble"),
             ("random_seed", .loopItem "random_seed")]
    env := [{ name := "TF_FORCE_UNIFIED_MEMORY",
              value := cfg.TF_FORCE_UNIFIED_MEMORY },
            { name := "XLA_PYTHON_CLIENT_MEM_FRACTION",
              value := cfg.XLA_PYTHON_CLIENT_MEM_FRACTION }]
    retry := some { num_retries := 1, backoff_duration := "60s",
                    backoff_factor := 2 } }

/-- relax_protein: the WrappedRelaxOp call inside the Condition body. -/
def relax_protein (cfg : Config) : ComponentCall :=
  { name := "relax_protein"
    job := some WrappedRelaxOp
    display_name := none
    args := [("project", .param "project"),
             ("location", .param "region"),
             ("unrelaxed_protein", .stepOut "model_predict" "unrelaxed_protein"),
             ("use_gpu", .litBool true)]
    env := [{ name := "TF_FORCE_UNIFIED_MEMORY",
              value := cfg.TF_FORCE_UNIFIED_MEMORY },
            { name := "XLA_PYTHON_CLIENT_MEM_FRACTION",
              value := cfg.XLA_PYTHON_CLIENT_MEM_FRACTION }]
    retry := some { num_retries := 1, backoff_duration := "60s",
                    backoff_factor := 2 } }

/-- The gate of the only dsl.Condition in the file. -/
def relaxGate : GateExpr := .eqStr (.param "is_run_relax") "relax"

/-- The ParallelFor body: the prediction call followed by the
Condition-gated relaxation call. -/
def loopBody (cfg : Config) : List InnerNode :=
  [.comp (model_predict cfg), .condition relaxGate [relax_protein cfg]]

/-- The pipeline graph declared by alphafold_inference_pipeline, in
declaration order. The graph is independent of the pipeline-parameter
values: parameters appear only symbolically, as ValueRef.param. -/
def alphafold_inference_pipeline (cfg : Config) : List Node :=
  [.comp run_config,
   .importer (model_parameters cfg),
   .importer (reference_databases cfg),
   .comp (data_pipeline cfg),
   .parallelFor (.stepOut "run_config" "model_runners") cfg.PARALLELISM
     (loopBody cfg)]

/-- Default of model_preset in the pipeline signature. -/
def default_model_preset : String := "monomer"

/-- Default of use_small_bfd. -/
def default_use_small_bfd : Bool := true

/-- Default of num_multimer_predictions_per_model. -/
def default_num_multimer_predictions_per_model : Int := 5

/-- Default of is_run_relax. -/
def default_is_run_relax : String := "relax"

/-- Concrete values of the pipeline parameters for one invocation; the
defaults are those of the Python signature. -/
structure PipelineParams where
  sequence_path : String
  project : String
  region : String
  max_template_date : String
  model_preset : String := default_model_preset
  use_small_bfd : Bool := default_use_small_bfd
  num_multimer_predictions_per_model : Int := default_num_multimer_predictions_per_model
  is_run_relax : String := default_is_run_relax
deriving DecidableEq, Repr

/-- One element of the model_runners list produced by the configuration
component; the pipeline file reads exactly these three fields. -/
structure ModelRunner where
  model_name : String
  prediction_index : Int
  random_seed : Int
deriving DecidableEq, Repr

/-- The string value of a pipeline parameter by name, for the parameters
of string type; a Condition gate can only compare those. -/
def paramString (p : PipelineParams) : String → Option String
  | "sequence_path" => some p.sequence_path
  | "project" => some p.project
  | "region" => some p.region
  | "max_template_date" => some p.max_template_date
  | "model_preset" => some p.model_preset
  | "is_run_relax" => some p.is_run_relax
  | _ => none

/-- Evaluation of a Condition gate at concrete parameter values. -/
def evalGate (p : PipelineParams) : GateExpr → Bool
  | .eqStr (.param n) rhs =>
      match paramString p n with
      | some v => v == rhs
      | none => false
  | .eqStr _ _ => false

/-- Substitution of the loop-item fields of one ModelRunner into a value
reference: instantiates model_runner.model_name, .prediction_index and
.random_seed; leaves every other reference unchanged. -/
def substRef (r : ModelRunner) : ValueRef → ValueRef
  | .loopItem "model_name" => .litStr r.model_name
  | .loopItem "prediction_index" => .litInt r.prediction_index
  | .loopItem "random_seed" => .litInt r.random_seed
  | v => v

/-- Substitution of one ModelRunner into every argument of a call. -/
def substCall (r : ModelRunner) (c : ComponentCall) : ComponentCall :=
  { c with args := c.args.map (fun kv => (kv.1, substRef r kv.2)) }

/-- A task instance of the expanded pipeline: a top-level component, an
imported artifact, or a component of the i-th ParallelFor iteration. -/
inductive TaskInst where
  | top (c : ComponentCall)
  | imported (i : ImporterCall)
  | iter (idx : Nat) (c : ComponentCall)
deriving DecidableEq, Repr

/-- Expansion of one inner node at one concrete runner: a component call
is instantiated; a Condition keeps its body exactly when its gate holds. -/
def expandInner (p : PipelineParams) (r : ModelRunner) : InnerNode → List ComponentCall
  | .comp c => [substCall r c]
  | .condition g body => if evalGate p g then body.map (substCall r) else []

/-- Expansion of one ParallelFor iteration. -/
def expandIteration (p : PipelineParams) (body : List InnerNode) (r : ModelRunner) :
    List ComponentCall :=
  body.flatMap (expandInner p r)

/-- Expansion of a ParallelFor loop: one iteration per runner, tagged with
its index, starting at index n. -/
def expandLoop (p : PipelineParams) (body : List InnerNode) :
    Nat → List ModelRunner → List TaskInst
  | _, [] => []
  | n, r :: rs =>
      (expandIteration p body r).map (TaskInst.iter n) ++ expandLoop p body (n + 1) rs

/-- Expansion of one top-level node. -/
def expandNode (p : PipelineParams) (rs : List ModelRunner) : Node → List TaskInst
  | .comp c => [TaskInst.top c]
  | .importer i => [TaskInst.imported i]
  | .condition g body => if evalGate p g then body.map TaskInst.top else []
  | .parallelFor _ _ body => expandLoop p body 0 rs

/-- Expansion of the whole declared pipeline at concrete parameter values
and a concrete model-runner list. -/
def expandPipeline (cfg : Config) (p : PipelineParams) (rs : List ModelRunner) :
    List TaskInst :=
  (alphafold_inference_pipeline cfg).flatMap (expandNode p rs)

/-- The loop-iteration tasks named n. -/
def iterTasksNamed (n : String) (ts : List TaskInst) : List TaskInst :=
  ts.filter (fun t =>
    match t with
    | .iter _ c => c.name == n
    | _ => false)

/-- The prediction task instances of an expansion. -/
def predictTasks (ts : List TaskInst) : List TaskInst := iterTasksNamed "model_predict" ts

/-- The relaxation task instances of an expansion. -/
def relaxTasks (ts : List TaskInst) : List TaskInst := iterTasksNamed "relax_protein" ts

/-- The producer step or importer a value reference consumes, when any. -/
def refProducer : ValueRef → Option String
  | .stepOut s _ => some s
  | .importerOut s => some s
  | _ => none

/-- The producers a call consumes through its arguments. -/
def callConsumes (c : ComponentCall) : List String :=
  c.args.filterMap (fun kv => refProducer kv.2)

/-- The component calls declared under one inner node. -/
def innerCalls : InnerNode → List ComponentCall
  | .comp c => [c]
  | .condition _ body => body

/-- The component calls declared under one top-level node. -/
def nodeCalls : Node → List ComponentCall
  | .comp c => [c]
  | .importer _ => []
  | .condition _ body => body
  | .parallelFor _ _ body => body.flatMap innerCalls

/-- All component calls of a graph, in declaration order. -/
def allCalls (g : List Node) : List ComponentCall := g.flatMap nodeCalls

/-- The declared names of one top-level node (calls and importers), in
declaration order. -/
def nodeNames : Node → List String
  | .comp c => [c.name]
  | .importer i => [i.name]
  | .condition _ body => body.map (fun c => c.name)
  | .parallelFor _ _ body => body.flatMap (fun n => (innerCalls n).map (fun c => c.name))

/-- All declared names of a graph, in declaration order. -/
def declNames (g : List Node) : List String := g.flatMap nodeNames

/-- The dependency edges of a graph: one producer-to-consumer pair for
each argument that consumes the output of a step or importer. -/
def pipelineEdges (g : List Node) : List (String × String) :=
  (allCalls g).flatMap (fun c => (callConsumes c).map (fun s => (s, c.name)))

/-- The position of a name in declaration order. -/
def declIdx (g : List Node) (n : String) : Nat := (declNames g).indexOf n

/-- A graph is topologically ordered when every dependency edge points
from an earlier declaration to a strictly later one; a graph with this
property is acyclic. -/
def topologicallyOrdered (g : List Node) : Bool :=
  (pipelineEdges g).all (fun e => declIdx g e.1 < declIdx g e.2)

/-- The number of Condition constructs of one top-level node, the
ParallelFor body included. -/
def nodeConditionCount : Node → Nat
  | .comp _ => 0
  | .importer _ => 0
  | .condition _ _ => 1
  | .parallelFor _ _ body =>
      (body.map (fun n =>
        match n with
        | .comp _ => 0
        | .condition _ _ => 1)).sum

/-- The number of Condition constructs of a graph. -/
def conditionCount (g : List Node) : Nat := (g.map nodeConditionCount).sum

/-- The retry policies declared in a graph, paired with the step names
that carry one. -/
def retryDecls (g : List Node) : List (String × RetryPolicy) :=
  (allCalls g).filterMap (fun c =>
    match c.retry with
    | some r => some (c.name, r)
    | none => none)

/-- The shape of an inner node, argument values erased. -/
inductive InnerShape where
  | step (name : String)
  | conditionStep (body : List String)
deriving DecidableEq, Repr

/-- The shape of a top-level node, argument values erased. -/
inductive TopShape where
  | step (name : String)
  | importerStep (name : String)
  | conditionStep (body : List String)
  | loopStep (body : List InnerShape)
deriving DecidableEq, Repr

/-- Shape erasure of an inner node. -/
def innerShape : InnerNode → InnerShape
  | .comp c => .step c.name
  | .condition _ body => .conditionStep (body.map (fun c => c.name))

/-- Shape erasure of a top-level node. -/
def nodeShape : Node → TopShape
  | .comp c => .step c.name
  | .importer i => .importerStep i.name
  | .condition _ body => .conditionStep (body.map (fun c => c.name))
  | .parallelFor _ _ body => .loopStep (body.map innerShape)

/-- Shape erasure of a graph. -/
def graphShape (g : List Node) : List TopShape := g.map nodeShape

/-! Helper lemmas about the expansion semantics. -/

/-- Filtering iteration tasks distributes over list append. -/
theorem iterTasksNamed_append (n : String) (xs ys : List TaskInst) :
    iterTasksNamed n (xs ++ ys) = iterTasksNamed n xs ++ iterTasksNamed n ys := by
  simp [iterTasksNamed]

/-- One expanded iteration holds exactly one prediction task. -/
theorem predict_iterTasks (cfg : Config) (p : PipelineParams) (r : ModelRunner) (n : Nat) :
    iterTasksNamed "model_predict"
        ((expandIteration p (loopBody cfg) r).map (TaskInst.iter n)) =
      [TaskInst.iter n (substCall r (model_predict cfg))] := by
  by_cases h : evalGate p relaxGate <;>
    simp [iterTasksNamed, expandIteration, loopBody, expandInner, h, List.filter,
          substCall, model_predict, relax_protein]

/-- One expanded iteration holds one relaxation task exactly when the gate
holds. -/
theorem relax_iterTasks (cfg : Config) (p : PipelineParams) (r : ModelRunner) (n : Nat) :
    iterTasksNamed "relax_protein"
        ((expandIteration p (loopBody cfg) r).map (TaskInst.iter n)) =
      if evalGate p relaxGate then [TaskInst.iter n (substCall r (relax_protein cfg))]
      else [] := by
  by_cases h : evalGate p relaxGate <;>
    simp [iterTasksNamed, expandIteration, loopBody, expandInner, h, List.filter,
          substCall, model_predict, relax_protein]

/-- The prediction tasks of an expanded loop: one per runner, tagged with
the runner position. -/
theorem predictTasks_expandLoop (cfg : Config) (p : PipelineParams) (n : Nat)
    (rs : List ModelRunner) :
    predictTasks (expandLoop p (loopBody cfg) n rs) =
      (List.enumFrom n rs).map
        (fun ir => TaskInst.iter ir.1 (substCall ir.2 (model_predict cfg))) := by
  induction rs generalizing n with
  | nil => rfl
  | cons r rs ih =>
      rw [expandLoop, predictTasks, iterTasksNamed_append, predict_iterTasks]
      rw [show iterTasksNamed "model_predict" (expandLoop p (loopBody cfg) (n + 1) rs) =
            predictTasks (expandLoop p (loopBody cfg) (n + 1) rs) from rfl, ih]
      simp [List.enumFrom]

/-- The relaxation tasks of an expanded loop: one per runner when the gate
holds, none otherwise. -/
theorem relaxTasks_expandLoop (cfg : Config) (p : PipelineParams) (n : Nat)
    (rs : List ModelRunner) :
    relaxTasks (expandLoop p (loopBody cfg) n rs) =
      if evalGate p relaxGate then
        (List.enumFrom n rs).map
          (fun ir => TaskInst.iter ir.1 (substCall ir.2 (relax_protein cfg)))
      else [] := by
  induction rs generalizing n with
  | nil => cases h : evalGate p relaxGate <;> simp [expandLoop, relaxTasks, iterTasksNamed]
  | cons r rs ih =>
      rw [expandLoop, relaxTasks, iterTasksNamed_append, relax_iterTasks]
      rw [show iterTasksNamed "relax_protein" (expandLoop p (loopBody cfg) (n + 1) rs) =
            relaxTasks (expandLoop p (loopBody cfg) (n + 1) rs) from rfl, ih]
      cases h : evalGate p relaxGate <;> simp [List.enumFrom, h]

/-- The expansion of the pipeline: the four top-level tasks followed by
the expanded loop. -/
theorem expandPipeline_eq (cfg : Config) (p : PipelineParams) (rs : List ModelRunner) :
    expandPipeline cfg p rs =
      TaskInst.top run_config ::
      TaskInst.imported (model_parameters cfg) ::
      TaskInst.imported (reference_databases cfg) ::
      TaskInst.top (data_pipeline cfg) ::
      expandLoop p (loopBody cfg) 0 rs := by
  simp [expandPipeline, alphafold_inference_pipeline, expandNode]

/-- The prediction tasks of the expanded pipeline. -/
theorem predictTasks_expandPipeline (cfg : Config) (p : PipelineParams)
    (rs : List ModelRunner) :
    predictTasks (expandPipeline cfg p rs) =
      (List.enumFrom 0 rs).map
        (fun ir => TaskInst.iter ir.1 (substCall ir.2 (model_predict cfg))) := by
  rw [expandPipeline_eq, show predictTasks (TaskInst.top run_config ::
      TaskInst.imported (model_parameters cfg) ::
      TaskInst.imported (reference_databases cfg) ::
      TaskInst.top (data_pipeline cfg) ::
      expandLoop p (loopBody cfg) 0 rs) =
        predictTasks (expandLoop p (loopBody cfg) 0 rs) from rfl,
      predictTasks_expandLoop]

/-- The relaxation tasks of the expanded pipeline. -/
theorem relaxTasks_expandPipeline (cfg : Config) (p : PipelineParams)
    (rs : List ModelRunner) :
    relaxTasks (expandPipeline cfg p rs) =
      if evalGate p relaxGate then
        (List.enumFrom 0 rs).map
          (fun ir => TaskInst.iter ir.1 (substCall ir.2 (relax_protein cfg)))
      else [] := by
  rw [expandPipeline_eq, show relaxTasks (TaskInst.top run_config ::
      TaskInst.imported (model_parameters cfg) ::
      TaskInst.imported (reference_databases cfg) ::
      TaskInst.top (data_pipeline cfg) ::
      expandLoop p (loopBody cfg) 0 rs) =
        relaxTasks (expandLoop p (loopBody cfg) 0 rs) from rfl,
      relaxTasks_expandLoop]

/-- A concrete configuration, used by witnesses. -/
def sampleConfig : Config :=
  { DATA_PIPELINE_MACHINE_TYPE := "c2-standard-16"
    NFS_SERVER := "10.0.0.2"
    NFS_PATH := "/datasets"
    NFS_MOUNT_POINT := "/mnt/nfs/alphafold"
    NETWORK := "projects/12345/global/networks/default"
    MODEL_PARAMS_GCS_LOCATION := "gs://bucket/params"
    UNIREF90_PATH := "uniref90/uniref90.fasta"
    MGNIFY_PATH := "mgnify/mgy_clusters.fa"
    BFD_PATH := "bfd/bfd_metaclust"
    SMALL_BFD_PATH := "small_bfd/bfd-first_non_consensus_sequences.fasta"
    UNIREF30_PATH := "uniref30/UniRef30_2021_03"
    PDB70_PATH := "pdb70/pdb70"
    PDB_MMCIF_PATH := "pdb_mmcif/mmcif_files"
    PDB_OBSOLETE_PATH := "pdb_mmcif/obsolete.dat"
    PDB_SEQRES_PATH := "pdb_seqres/pdb_seqres.txt"
    UNIPROT_PATH := "uniprot/uniprot.fasta"
    PARALLELISM := 5
    TF_FORCE_UNIFIED_MEMORY := "1"
    XLA_PYTHON_CLIENT_MEM_FRACTION := "4.0" }

/-- Concrete pipeline parameters, defaults kept, used by witnesses. -/
def sampleParams : PipelineParams :=
  { sequence_path := "gs://bucket/seq.fasta"
    project := "my-project"
    region := "us-central1"
    max_template_date := "2030-01-01" }

/-- A concrete model-runner descriptor, used by witnesses. -/
def sampleRunner : ModelRunner :=
  { model_name := "model_1", prediction_index := 0, random_seed := 7 }

/-! Claim theorems. -/

/-- C1: the graph declared by alphafold_inference_pipeline is a static
linear-with-fan-out DAG: its shape is the same for every configuration
(and, parameters entering only symbolically, for every choice of pipeline
parameters), it consists of the configuration step, two importers, the
data-preparation step, then one bounded ParallelFor whose body holds one
prediction step and one Condition holding the relaxation step; its
dependency edges are exactly the listed ones, every edge points from an
earlier declaration to a strictly later one (so the graph is acyclic), and
it holds exactly one conditional construct. -/
theorem C1_static_linear_dag (cfg cfg' : Config) :
    graphShape (alphafold_inference_pipeline cfg) =
      [TopShape.step "run_config",
       TopShape.importerStep "model_parameters",
       TopShape.importerStep "reference_databases",
       TopShape.step "data_pipeline",
       TopShape.loopStep [InnerShape.step "model_predict",
                          InnerShape.conditionStep ["relax_protein"]]]
    ∧ graphShape (alphafold_inference_pipeline cfg) =
        graphShape (alphafold_inference_pipeline cfg')
    ∧ pipelineEdges (alphafold_inference_pipeline cfg) =
        [("reference_databases", "data_pipeline"),
         ("run_config", "data_pipeline"),
         ("run_config", "data_pipeline"),
         ("data_pipeline", "model_predict"),
         ("model_parameters", "model_predict"),
         ("run_config", "model_predict"),
         ("run_config", "model_predict"),
         ("model_predict", "relax_protein")]
    ∧ topologicallyOrdered (alphafold_inference_pipeline cfg) = true
    ∧ conditionCount (alphafold_inference_pipeline cfg) = 1 :=
  ⟨rfl, rfl, rfl, rfl, rfl⟩

/-- C4: the data-preparation call consumes the sequence and
run_multimer_system outputs of the configuration call, an edge from
run_config to data_pipeline is declared, and run_config is declared
strictly before data_pipeline. -/
theorem C4_data_after_configure (cfg : Config) :
    (data_pipeline cfg).args.lookup "sequence" =
      some (.stepOut "run_config" "sequence")
    ∧ (data_pipeline cfg).args.lookup "run_multimer_system" =
        some (.stepOut "run_config" "run_multimer_system")
    ∧ ("run_config", "data_pipeline") ∈
        pipelineEdges (alphafold_inference_pipeline cfg)
    ∧ declIdx (alphafold_inference_pipeline cfg) "run_config" <
        declIdx (alphafold_inference_pipeline cfg) "data_pipeline"
    ∧ (alphafold_inference_pipeline cfg)[0]? = some (.comp run_config)
    ∧ (alphafold_inference_pipeline cfg)[3]? = some (.comp (data_pipeline cfg)) :=
  ⟨rfl, rfl, List.Mem.tail _ (List.Mem.head _),
   Nat.lt_of_sub_eq_succ rfl, rfl, rfl⟩

/-- C5: the steps declaring a retry policy are exactly the prediction and
relaxation steps, both with one retry, 60s backoff duration and backoff
factor 2. -/
theorem C5_retry_decls (cfg : Config) :
    retryDecls (alphafold_inference_pipeline cfg) =
      [("model_predict",
        { num_retries := 1, backoff_duration := "60s", backoff_factor := 2 }),
       ("relax_protein",
        { num_retries := 1, backoff_duration := "60s", backoff_factor := 2 })] :=
  rfl

/-- C2: the graph holds one ParallelFor over the model_runners output of
the configuration step, its fan-out bounded by the configured PARALLELISM
constant; the expansion declares exactly one prediction task per runner,
and that task receives the model_name, prediction_index and random_seed of
its own runner. -/
theorem C2_one_predict_per_runner (cfg : Config) (p : PipelineParams)
    (rs : List ModelRunner) (r : ModelRunner) :
    (alphafold_inference_pipeline cfg)[4]? =
      some (.parallelFor (.stepOut "run_config" "model_runners")
        cfg.PARALLELISM (loopBody cfg))
    ∧ predictTasks (expandPipeline cfg p rs) =
        (List.enumFrom 0 rs).map
          (fun ir => TaskInst.iter ir.1 (substCall ir.2 (model_predict cfg)))
    ∧ (substCall r (model_predict cfg)).args.lookup "model_name" =
        some (.litStr r.model_name)
    ∧ (substCall r (model_predict cfg)).args.lookup "prediction_index" =
        some (.litInt r.prediction_index)
    ∧ (substCall r (model_predict cfg)).args.lookup "random_seed" =
        some (.litInt r.random_seed) :=
  ⟨rfl, predictTasks_expandPipeline cfg p rs, rfl, rfl, rfl⟩

/-- C3: the graph holds exactly one Condition; it sits in the ParallelFor
body, its gate compares the pipeline parameter is_run_relax with the
string relax, the gate evaluates to that string equality, and the
expansion holds the relaxation tasks exactly when the gate holds and none
otherwise. -/
theorem C3_single_conditional (cfg : Config) (p : PipelineParams)
    (rs : List ModelRunner) :
    conditionCount (alphafold_inference_pipeline cfg) = 1
    ∧ loopBody cfg =
        [.comp (model_predict cfg), .condition relaxGate [relax_protein cfg]]
    ∧ relaxGate = .eqStr (.param "is_run_relax") "relax"
    ∧ evalGate p relaxGate = (p.is_run_relax == "relax")
    ∧ relaxTasks (expandPipeline cfg p rs) =
        (if evalGate p relaxGate then
          (List.enumFrom 0 rs).map
            (fun ir => TaskInst.iter ir.1 (substCall ir.2 (relax_protein cfg)))
        else []) :=
  ⟨rfl, rfl, rfl, rfl, relaxTasks_expandPipeline cfg p rs⟩

/-- C6: the sequence output of the configuration step flows into the
data-preparation call, the reference-database importer output flows into
the data-preparation call, the model-parameter importer reads the
configured GCS location and its output flows into every expanded
prediction task, and the reference-database importer reads the NFS mount
point and carries the database-path metadata entries. -/
theorem C6_artifact_flows (cfg : Config) (p : PipelineParams)
    (rs : List ModelRunner) :
    (data_pipeline cfg).args.lookup "sequence" =
      some (.stepOut "run_config" "sequence")
    ∧ (data_pipeline cfg).args.lookup "ref_databases" =
        some (.importerOut "reference_databases")
    ∧ (model_parameters cfg).artifact_uri = cfg.MODEL_PARAMS_GCS_LOCATION
    ∧ (reference_databases cfg).artifact_uri = cfg.NFS_MOUNT_POINT
    ∧ (reference_databases cfg).metadata.map Prod.fst =
        ["uniref90", "mgnify", "bfd", "small_bfd", "uniref30",
         "pdb70", "pdb_mmcif", "pdb_obsolete", "pdb_seqres", "uniprot"]
    ∧ ∀ t ∈ predictTasks (expandPipeline cfg p rs), ∃ i c,
        t = TaskInst.iter i c
        ∧ c.args.lookup "model_params" = some (.importerOut "model_parameters") := by
  refine ⟨rfl, rfl, rfl, rfl, rfl, ?_⟩
  rw [predictTasks_expandPipeline]
  intro t ht
  simp only [List.mem_map] at ht
  obtain ⟨ir, _, rfl⟩ := ht
  exact ⟨ir.1, substCall ir.2 (model_predict cfg), rfl, rfl⟩

/-- C6 witness: at a concrete configuration, concrete parameters and a
one-runner list, the expanded prediction task receives the model-parameter
importer output. -/
theorem C6_artifact_flows_witness :
    TaskInst.iter 0 (substCall sampleRunner (model_predict sampleConfig)) ∈
      predictTasks (expandPipeline sampleConfig sampleParams [sampleRunner])
    ∧ ∃ i c,
        TaskInst.iter 0 (substCall sampleRunner (model_predict sampleConfig)) =
          TaskInst.iter i c
        ∧ c.args.lookup "model_params" = some (.importerOut "model_parameters") :=
  ⟨by decide,
   (C6_artifact_flows sampleConfig sampleParams [sampleRunner]).2.2.2.2.2 _ (by decide)⟩

/-- C7: the prediction and relaxation steps run under custom-job wrappers
with the same machine type g2-standard-12, one NVIDIA_L4 accelerator, and
the same two configuration-module environment variables; the
data-preparation step runs under its own configured machine type with the
NFS mount and no accelerator. -/
theorem C7_infra_annotations (cfg : Config) :
    (model_predict cfg).job = some WrappedPredictOp
    ∧ (relax_protein cfg).job = some WrappedRelaxOp
    ∧ WrappedPredictOp.machine_type = "g2-standard-12"
    ∧ WrappedRelaxOp.machine_type = "g2-standard-12"
    ∧ WrappedPredictOp.accelerator_type = some "NVIDIA_L4"
    ∧ WrappedRelaxOp.accelerator_type = some "NVIDIA_L4"
    ∧ WrappedPredictOp.accelerator_count = some 1
    ∧ WrappedRelaxOp.accelerator_count = some 1
    ∧ (model_predict cfg).env =
        [{ name := "TF_FORCE_UNIFIED_MEMORY", value := cfg.TF_FORCE_UNIFIED_MEMORY },
         { name := "XLA_PYTHON_CLIENT_MEM_FRACTION",
           value := cfg.XLA_PYTHON_CLIENT_MEM_FRACTION }]
    ∧ (relax_protein cfg).env = (model_predict cfg).env
    ∧ (data_pipeline cfg).job = some (DataPipelineOp cfg)
    ∧ (DataPipelineOp cfg).machine_type = cfg.DATA_PIPELINE_MACHINE_TYPE
    ∧ (DataPipelineOp cfg).nfs_mounts =
        [{ server := cfg.NFS_SERVER, path := cfg.NFS_PATH,
           mountPoint := cfg.NFS_MOUNT_POINT }]
    ∧ (DataPipelineOp cfg).accelerator_type = none
    ∧ (DataPipelineOp cfg).accelerator_count = none :=
  ⟨rfl, rfl, rfl, rfl, rfl, rfl, rfl, rfl, rfl, rfl, rfl, rfl, rfl, rfl, rfl⟩

/-- C8: the Condition sits inside the ParallelFor body, so when the gate
holds the expansion declares one relaxation task per runner iteration,
tagged with the same iteration index as the single prediction task of that
iteration; every relaxation call consumes the unrelaxed_protein output of
the prediction step and fixes use_gpu to true. -/
theorem C8_relax_nested_in_loop (cfg : Config) (p : PipelineParams)
    (rs : List ModelRunner) (r : ModelRunner) :
    (alphafold_inference_pipeline cfg)[4]? =
      some (.parallelFor (.stepOut "run_config" "model_runners")
        cfg.PARALLELISM (loopBody cfg))
    ∧ loopBody cfg =
        [.comp (model_predict cfg), .condition relaxGate [relax_protein cfg]]
    ∧ (alphafold_inference_pipeline cfg).map nodeConditionCount = [0, 0, 0, 0, 1]
    ∧ relaxTasks (expandPipeline cfg p rs) =
        (if evalGate p relaxGate then
          (List.enumFrom 0 rs).map
            (fun ir => TaskInst.iter ir.1 (substCall ir.2 (relax_protein cfg)))
        else [])
    ∧ predictTasks (expandPipeline cfg p rs) =
        (List.enumFrom 0 rs).map
          (fun ir => TaskInst.iter ir.1 (substCall ir.2 (model_predict cfg)))
    ∧ (substCall r (relax_protein cfg)).args.lookup "unrelaxed_protein" =
        some (.stepOut "model_predict" "unrelaxed_protein")
    ∧ (substCall r (relax_protein cfg)).args.lookup "use_gpu" =
        some (.litBool true) :=
  ⟨rfl, rfl, rfl, relaxTasks_expandPipeline cfg p rs,
   predictTasks_expandPipeline cfg p rs, rfl, rfl⟩

/-- C9: the relaxation gate is string equality of the is_run_relax
parameter with the string relax; the strings true, True and yes make the
gate false; the default value of is_run_relax is relax, which makes the
gate true; and the expansion holds relaxation tasks exactly when
is_run_relax equals relax. -/
theorem C9_gate_string_equality (cfg : Config) (p : PipelineParams)
    (rs : List ModelRunner) :
    relaxGate = .eqStr (.param "is_run_relax") "relax"
    ∧ evalGate p relaxGate = (p.is_run_relax == "relax")
    ∧ evalGate { p with is_run_relax := "true" } relaxGate = false
    ∧ evalGate { p with is_run_relax := "True" } relaxGate = false
    ∧ evalGate { p with is_run_relax := "yes" } relaxGate = false
    ∧ default_is_run_relax = "relax"
    ∧ evalGate { p with is_run_relax := default_is_run_relax } relaxGate = true
    ∧ relaxTasks (expandPipeline cfg p rs) =
        (if p.is_run_relax == "relax" then
          (List.enumFrom 0 rs).map
            (fun ir => TaskInst.iter ir.1 (substCall ir.2 (relax_protein cfg)))
        else []) :=
  ⟨rfl, rfl, rfl, rfl, rfl, rfl, rfl, relaxTasks_expandPipeline cfg p rs⟩

/-- C10: the model-parameter importer is declared with reimport true, the
reference-database importer with reimport false, and the latter carries
exactly the ten database-path metadata entries. -/
theorem C10_importer_flags (cfg : Config) :
    (model_parameters cfg).reimport = true
    ∧ (reference_databases cfg).reimport = false
    ∧ (reference_databases cfg).metadata =
        [("uniref90", cfg.UNIREF90_PATH),
         ("mgnify", cfg.MGNIFY_PATH),
         ("bfd", cfg.BFD_PATH),
         ("small_bfd", cfg.SMALL_BFD_PATH),
         ("uniref30", cfg.UNIREF30_PATH),
         ("pdb70", cfg.PDB70_PATH),
         ("pdb_mmcif", cfg.PDB_MMCIF_PATH),
         ("pdb_obsolete", cfg.PDB_OBSOLETE_PATH),
         ("pdb_seqres", cfg.PDB_SEQRES_PATH),
         ("uniprot", cfg.UNIPROT_PATH)]
    ∧ (reference_databases cfg).metadata.length = 10 :=
  ⟨rfl, rfl, rfl, rfl⟩
